import Mathlib

/-!
Verification of the interaction/geometry engine of the virtualized timeline
component (`VirtualizedTimeline`, `TimelineDragManager`, `useTimelineDrag`,
`useTimelineEvents`).

Dates are modelled as integers.  The grid stores day-granularity bucket
dates produced by `eachDayOfInterval` (etc.), and all of the arithmetic the
engine performs on dates is comparison, subtraction of timestamps, and
`addDays`; an `Int` day number supports all of these faithfully
(`addDays n d = d + n`, `isSameDay a b = (a = b)`, `a < b` as timestamps).
The `Map` collections are modelled as lists in insertion order; DOM
side-effects (ghost element, CSS classes, animation frames) are modelled as
explicit fields of a manager-state record, with counters for the
destruction effects so that double-release can be observed.
-/

namespace VT

/-- `addDays` from date-fns, on integer day numbers. -/
def addDays (amount : Int) (date : Int) : Int := date + amount

/-- `isSameDay` from date-fns, on integer day numbers. -/
def isSameDay (a b : Int) : Bool := a == b

/-- A timeline event (`TimelineEvent` in `types`): unique id, owning
resource id, half-open interval `[start, end)`. -/
structure TimelineEvent where
  id : String
  resourceId : String
  start : Int
  «end» : Int
  deriving DecidableEq

/-- The payload handed to the `onEventDrop` collaborator (`EventDropInfo`). -/
structure EventDropInfo where
  eventId : String
  resourceId : String
  start : Int
  «end» : Int
  deriving DecidableEq

/-- `TimelineDragManager.checkForConflicts` (and the identical
`checkTimeSlotConflict` in `useTimelineEvents`): fetch the resource's
events, drop the excluded id if one is given, and report whether any
remaining event's interval overlaps the candidate under the half-open rule
`startDate < eventEnd && endDate > eventStart`. -/
def checkForConflicts (eventMap : List TimelineEvent) (resourceId : String)
    (startDate endDate : Int) (excludeEventId : Option String) : Bool :=
  let resourceEvents := eventMap.filter fun event =>
    event.resourceId == resourceId &&
      (match excludeEventId with
       | some x => event.id != x
       | none => true)
  resourceEvents.any fun event =>
    decide (startDate < event.«end») && decide (endDate > event.start)

/-- `TimelineDragManager.handleDragCreateEnd`, committed interval: the
gesture's two dates are sorted ascending (`[startDate, endDate].sort` by
timestamp) and the modal collaborator receives `(sorted start,
addDays(sorted end, 1))` — the comment in the source reads
"End date is exclusive".  The same computation appears in
`useTimelineDrag.handleMouseUp`. -/
def handleDragCreateEnd_interval (startDate endDate : Int) : Int × Int :=
  let sorted := if startDate ≤ endDate then (startDate, endDate) else (endDate, startDate)
  (sorted.1, addDays 1 sorted.2)

/-- Modelled from the spec: the spec's create-gesture commits
`[min(anchor,current), max(anchor,current)]` inclusive, "converted to
exclusive-end by advancing one bucket".  For a later column that is not the
final one, the date one bucket past it is the next column's date. -/
def specOneBucketPast (dateColumns : List Int) (laterIdx : Nat) : Option Int :=
  dateColumns[laterIdx + 1]?

/-- The geometry result of `calculateEventPosition` in `useTimelineEvents`. -/
structure EventPosition where
  isVisible : Bool
  isStart : Bool
  isEnd : Bool
  startIndex : Int
  endIndex : Int
  width : Int
  deriving DecidableEq

/-- `calculateEventPosition` from `useTimelineEvents`: find the column
whose day equals the event's start and the column whose day equals the day
before the exclusive end (`addDays(eventEnd, -1)`); if neither is found the
event is still visible when some column lies within
`[eventStart, eventEnd - 1 day]`; missing endpoints clamp to the first and
last column. -/
def calculateEventPosition (eventStart eventEnd : Int) (dateColumns : List Int) :
    EventPosition :=
  let startIndex : Int :=
    match dateColumns.findIdx? (fun date => isSameDay date eventStart) with
    | some i => (i : Int)
    | none => -1
  let effectiveEndDate := addDays (-1) eventEnd
  let endIndex : Int :=
    match dateColumns.findIdx? (fun date => isSameDay date effectiveEndDate) with
    | some i => (i : Int)
    | none => -1
  let isVisible : Bool :=
    startIndex != -1 || endIndex != -1 ||
      (startIndex == -1 && endIndex == -1 &&
        dateColumns.any (fun date =>
          decide (eventStart ≤ date) && decide (date ≤ addDays (-1) eventEnd)))
  if !isVisible then
    ⟨false, false, false, -1, -1, 0⟩
  else
    let effectiveStartIndex := if startIndex == -1 then 0 else startIndex
    let effectiveEndIndex :=
      if endIndex == -1 then (dateColumns.length : Int) - 1 else endIndex
    ⟨true, startIndex != -1, endIndex != -1, effectiveStartIndex, effectiveEndIndex,
      effectiveEndIndex - effectiveStartIndex + 1⟩

/-- The create-gesture state (`DragCreateState` in `types`). -/
structure DragCreateState where
  isActive : Bool
  resourceId : Option String
  startDate : Option Int
  endDate : Option Int
  startIndex : Option Nat
  endIndex : Option Nat
  deriving DecidableEq

/-- The inactive create-gesture state the manager resets to. -/
def DragCreateState.reset : DragCreateState := ⟨false, none, none, none, none, none⟩

/-- The move-gesture state (`DragState` in `types`). -/
structure DragState where
  isDragging : Bool
  currentEvent : Option TimelineEvent
  offsetX : Int
  offsetY : Int
  eventWidth : Option Int
  deriving DecidableEq

/-- The reset drag state written by `handleDragEnd`:
`{isDragging: false, currentEvent: null, offset: {x: 0, y: 0}, eventWidth: undefined}`. -/
def DragState.reset : DragState := ⟨false, none, 0, 0, none⟩

/-- The subscriber-notification categories (`EventType` in `types`). -/
inductive EventType where
  | dragCreateStateChange
  | dragStateChange
  | resourceIndexChange
  deriving DecidableEq

/-- The mutable fields of `TimelineDragManager` relevant to the gesture
machines, with the DOM side-effects (detached ghost element, drag-related
CSS classes, pending animation frame) as explicit fields. -/
structure ManagerState where
  eventMap : List TimelineEvent
  dragCreateState : DragCreateState
  dragState : DragState
  currentResourceIndex : Option Nat
  dragGhost : Bool
  isDropping : Bool
  isScrolling : Bool
  horizontalScrollSpeed : Int
  verticalScrollSpeed : Int
  animationFrameId : Option Nat
  draggingClass : Bool
  dragOverClass : Bool
  dragNotAllowedClass : Bool
  highlightRowClass : Bool
  errorMessage : Option String
  deriving DecidableEq

/-- `TimelineDragManager.stopScrolling`: early-returns when not scrolling,
otherwise clears the flag and both speeds and cancels the pending animation
frame.  The second component counts `cancelAnimationFrame` calls. -/
def stopScrolling (s : ManagerState) : ManagerState × Nat :=
  if !s.isScrolling then (s, 0)
  else
    ({ s with isScrolling := false, horizontalScrollSpeed := 0,
              verticalScrollSpeed := 0, animationFrameId := none },
     if s.animationFrameId.isSome then 1 else 0)

/-- `TimelineDragManager.removeDragGhost`: removes the detached ghost
element if one exists.  The second component counts DOM removals. -/
def removeDragGhost (s : ManagerState) : ManagerState × Nat :=
  if s.dragGhost then ({ s with dragGhost := false }, 1) else (s, 0)

/-- The destruction effects of one cleanup run. -/
structure CleanupEffects where
  frameCancels : Nat
  ghostRemovals : Nat
  deriving DecidableEq

/-- `TimelineDragManager.handleDragEnd`: stop scrolling, remove the drag
ghost, strip every drag-related CSS class from the document, reset the drag
state and the hovered resource index. -/
def handleDragEnd (s : ManagerState) : ManagerState × CleanupEffects :=
  let r1 := stopScrolling s
  let r2 := removeDragGhost r1.1
  ({ r2.1 with
      draggingClass := false, dragOverClass := false,
      dragNotAllowedClass := false, highlightRowClass := false,
      dragState := DragState.reset,
      currentResourceIndex := none },
   ⟨r1.2, r2.2⟩)

/-- The outcome of one `handleDrop` call: the post state, the relocation
payload passed to `onEventDrop` (if any), how many times the callback was
invoked, and the cleanup effects. -/
structure DropResult where
  state : ManagerState
  emitted : Option EventDropInfo
  dropCalls : Nat
  effects : CleanupEffects
  deriving DecidableEq

/-- `TimelineDragManager.handleDrop`: returns immediately when no
`onEventDrop` callback is configured; otherwise sets the dropping flag,
clears cell feedback classes, computes `newEnd = date + (end - start)`,
runs `checkForConflicts` excluding the moved event's id, and either aborts
with an error message plus `handleDragEnd` cleanup, or invokes the callback
once (a throwing callback — `callbackThrows` — is caught and surfaced as a
message) and then runs `handleDragEnd`.  On the success path the dropping
flag is only cleared later by a 300 ms timer, outside this call. -/
def handleDrop (hasOnEventDrop callbackThrows : Bool) (s : ManagerState)
    (resourceId : String) (date : Int) (event : TimelineEvent) : DropResult :=
  if !hasOnEventDrop then ⟨s, none, 0, ⟨0, 0⟩⟩
  else
    let s0 := { s with isDropping := true,
                       dragOverClass := false, dragNotAllowedClass := false }
    let eventDuration := event.«end» - event.start
    let newEnd := date + eventDuration
    let hasConflict := checkForConflicts s0.eventMap resourceId date newEnd (some event.id)
    if hasConflict then
      let s1 := { s0 with
        errorMessage := some "Cannot drop event: time slot already occupied" }
      let r := handleDragEnd s1
      ⟨{ r.1 with isDropping := false }, none, 0, r.2⟩
    else
      let info : EventDropInfo := ⟨event.id, resourceId, date, newEnd⟩
      let s1 := if callbackThrows
        then { s0 with
          errorMessage := some "Error occurred while updating event. Please try again." }
        else s0
      let r := handleDragEnd s1
      ⟨r.1, some info, 1, r.2⟩

/-- `useTimelineDrag.handleEventDrop`: the hook's drop path computes the
same `newEnd = date + (end - start)` and dispatches the relocation info to
`onEventDrop`. -/
def hookHandleEventDrop (resourceId : String) (date : Int) (event : TimelineEvent) :
    EventDropInfo :=
  let eventDuration := event.«end» - event.start
  let newEnd := date + eventDuration
  ⟨event.id, resourceId, date, newEnd⟩

/-- `TimelineDragManager.handleMouseDown`: the create-gesture press.  It is
gated on `droppable`, `isOccupied` and `editable`; when the gate passes it
runs `cleanupDragState` (stop scrolling, remove ghost), activates the
drag-create state (notifying `dragCreateStateChange`) and, when the DOM
hit-test `findResourceIndexFromPosition` resolves (`foundIndex`), updates
the hovered resource index (notifying `resourceIndexChange`). -/
def handleMouseDown (droppable editable : Bool) (s : ManagerState)
    (resourceId : String) (date : Int) (dateIndex : Nat) (isOccupied : Bool)
    (foundIndex : Option Nat) : ManagerState × List EventType :=
  if !droppable || isOccupied || !editable then (s, [])
  else
    let r1 := stopScrolling s
    let r2 := removeDragGhost r1.1
    let s3 := { r2.1 with dragCreateState :=
      ⟨true, some resourceId, some date, some date, some dateIndex, some dateIndex⟩ }
    match foundIndex with
    | some idx =>
        ({ s3 with currentResourceIndex := some idx },
         [EventType.dragCreateStateChange, EventType.resourceIndexChange])
    | none => (s3, [EventType.dragCreateStateChange])

/-- `scrollThreshold` of `useTimelineDrag`'s auto-scroll state: pixels
from a viewport edge inside which auto-scroll engages. -/
def scrollThreshold : Int := 60

/-- `maxScrollSpeed` of `useTimelineDrag`'s auto-scroll state. -/
def maxScrollSpeed : Int := 30

/-- The edge-intensity factor `Math.max(0, 1 - distance / threshold)`
computed by `handleAutoScroll`, as an exact rational. -/
def autoScrollIntensity (distance : Int) : ℚ :=
  max 0 (1 - (distance : ℚ) / (scrollThreshold : ℚ))

/-- The horizontal branch of `useTimelineDrag.handleAutoScroll`:
`-Math.ceil(intensity * maxSpeed)` when within the threshold of the left
edge, `Math.ceil(intensity * maxSpeed)` when within the threshold of the
right edge, zero otherwise. -/
def handleAutoScrollHorizontalSpeed (containerLeft containerRight mouseX : Int) : Int :=
  let distanceFromLeft := mouseX - containerLeft
  let distanceFromRight := containerRight - mouseX
  if distanceFromLeft < scrollThreshold ∧ 0 ≤ distanceFromLeft then
    -⌈autoScrollIntensity distanceFromLeft * (maxScrollSpeed : ℚ)⌉
  else if distanceFromRight < scrollThreshold ∧ 0 ≤ distanceFromRight then
    ⌈autoScrollIntensity distanceFromRight * (maxScrollSpeed : ℚ)⌉
  else 0

/-- The per-event day loop of `useTimelineEvents.resourceEventMap`:
starting at the event's start, add one day key at a time while strictly
before the event's exclusive end
(`while (isBefore(currentDate, eventEnd)) { add; currentDate = addDays(currentDate, 1) }`). -/
def occupiedDaysFrom (currentDate eventEnd : Int) : List Int :=
  if currentDate < eventEnd then
    currentDate :: occupiedDaysFrom (addDays 1 currentDate) eventEnd
  else []
termination_by (eventEnd - currentDate).toNat
decreasing_by
  simp only [VT.addDays]
  omega

/-- `useTimelineEvents.getEventsForResource` backed by
`resourceEventIndex`: the events owned by the resource, in input order. -/
def getEventsForResource (events : List TimelineEvent) (resourceId : String) :
    List TimelineEvent :=
  events.filter (fun event => event.resourceId == resourceId)

/-- The per-resource occupied-date set of `resourceEventMap`: the union of
the day keys collected for each of the resource's events.  It is a pure
function of the event collection and the resource — rebuilt from scratch
whenever either input changes. -/
def occupiedDates (events : List TimelineEvent) (resourceId : String) : List Int :=
  (getEventsForResource events resourceId).flatMap
    (fun event => occupiedDaysFrom event.start event.«end»)

/-- A concrete manager state (one event `[3, 5)` on resource `r1`, a live
ghost, an active auto-scroll frame and stale feedback classes) used to
instantiate the hypothesised theorems on concrete inputs. -/
def sampleState : ManagerState where
  eventMap := [⟨"e1", "r1", 3, 5⟩]
  dragCreateState := DragCreateState.reset
  dragState := ⟨true, some ⟨"e2", "r1", 10, 12⟩, 6, 8, some 240⟩
  currentResourceIndex := some 2
  dragGhost := true
  isDropping := false
  isScrolling := true
  horizontalScrollSpeed := 4
  verticalScrollSpeed := 0
  animationFrameId := some 7
  draggingClass := true
  dragOverClass := true
  dragNotAllowedClass := false
  highlightRowClass := true
  errorMessage := none

end VT

/-- On a duplicate-free column list, the first index whose entry equals `v`
is the unique position of `v`. -/
theorem VT.findIdx_beq_of_nodup {cols : List Int} (hnd : cols.Nodup) {i : Nat} {v : Int}
    (h : cols[i]? = some v) :
    cols.findIdx? (fun d => VT.isSameDay d v) = some i := by
  obtain ⟨hi, hv⟩ := List.getElem?_eq_some.mp h
  rw [List.findIdx?_eq_some_iff_getElem]
  refine ⟨hi, by simp [VT.isSameDay, hv], fun j hji => ?_⟩
  have hj : j < cols.length := Nat.lt_trans hji hi
  simp only [VT.isSameDay, beq_iff_eq, Bool.not_eq_true, decide_eq_false_iff_not]
  intro hEq
  have : j = i := (hnd.getElem_inj_iff).mp (by rw [hEq, hv])
  omega

/-- C1: `checkForConflicts R [s,e) X` returns true iff some event of
resource `R` whose id differs from the optional excluded id `X` has an
interval `[b0,b1)` with `s < b1` and `e > b0`; adjacency (`s = b1` or
`e = b0`) therefore never registers as a conflict. -/
theorem VT.checkForConflicts_iff (eventMap : List VT.TimelineEvent) (r : String)
    (s e : Int) (x : Option String) :
    VT.checkForConflicts eventMap r s e x = true ↔
      ∃ ev ∈ eventMap, ev.resourceId = r ∧
        (∀ xid, x = some xid → ev.id ≠ xid) ∧ s < ev.«end» ∧ e > ev.start := by
  simp only [VT.checkForConflicts, List.any_eq_true, List.mem_filter,
    Bool.and_eq_true, decide_eq_true_eq, beq_iff_eq, bne_iff_ne]
  constructor
  · rintro ⟨ev, ⟨hmem, hr, hx⟩, h1, h2⟩
    refine ⟨ev, hmem, hr, ?_, h1, h2⟩
    intro xid hxid
    cases hxid
    simpa using hx
  · rintro ⟨ev, hmem, hr, hx, h1, h2⟩
    refine ⟨ev, ⟨hmem, hr, ?_⟩, h1, h2⟩
    cases x with
    | none => simp
    | some xid => simpa using hx xid rfl

/-- C4 counterexample: with monthly-granularity columns (Jan 1 = day 0,
Feb 1 = day 31, Mar 1 = day 59), a create gesture anchored on column 0 and
released on column 1 commits the exclusive end day 32 — one day past
Feb 1 — whereas one bucket past the later column is Mar 1 = day 59. -/
theorem VT.dragCreateEnd_one_day_not_one_bucket :
    (VT.handleDragCreateEnd_interval 0 31).2 = 32 ∧
      VT.specOneBucketPast [0, 31, 59] 1 = some 59 ∧ (32 : Int) ≠ 59 := by
  decide

/-- C4 (amended): the committed interval is `[min(Da,Dc), max(Da,Dc) + one
day)` — the earlier of the two dates inclusive, one *day* past the later
exclusive; this coincides with the one-bucket advance only in day
granularity, e.g. anchored at day 7 and released at day 4 the committed
interval is `[day4, day8)`. -/
theorem VT.handleDragCreateEnd_interval_eq (anchor current : Int) :
    VT.handleDragCreateEnd_interval anchor current =
      (min anchor current, max anchor current + 1) ∧
    VT.handleDragCreateEnd_interval 7 4 = (4, 8) := by
  refine ⟨?_, by decide⟩
  unfold VT.handleDragCreateEnd_interval VT.addDays
  by_cases h : anchor ≤ current
  · simp [if_pos h, min_eq_left h, max_eq_right h]
  · have h' : current ≤ anchor := le_of_not_le h
    simp [if_neg h, min_eq_right h', max_eq_left h']

/-- C5: (1) an event whose start day sits at visible column `i` and whose
exclusive end minus one day sits at column `j ≥ i` is visible with
`startIndex = i` and `width = j - i + 1`; (2) if neither endpoint day
matches a column but some column lies inside the event's interval, the
geometry clamps to the first and last columns and is marked visible;
(3) an event intersecting no visible column yields `isVisible = false` and
no geometry. -/
theorem VT.calculateEventPosition_spec (cols : List Int) (s e : Int)
    (hnd : cols.Nodup) :
    (∀ i j : Nat, cols[i]? = some s → cols[j]? = some (e - 1) → i ≤ j →
      (VT.calculateEventPosition s e cols).isVisible = true ∧
        (VT.calculateEventPosition s e cols).startIndex = (i : Int) ∧
        (VT.calculateEventPosition s e cols).width = (j : Int) - (i : Int) + 1) ∧
    ((∀ c ∈ cols, c ≠ s) → (∀ c ∈ cols, c ≠ e - 1) →
      (∃ c ∈ cols, s ≤ c ∧ c ≤ e - 1) →
      (VT.calculateEventPosition s e cols).isVisible = true ∧
        (VT.calculateEventPosition s e cols).startIndex = 0 ∧
        (VT.calculateEventPosition s e cols).endIndex = (cols.length : Int) - 1) ∧
    (s < e → (∀ c ∈ cols, ¬ (s ≤ c ∧ c < e)) →
      VT.calculateEventPosition s e cols = ⟨false, false, false, -1, -1, 0⟩) := by
  have hE : VT.addDays (-1) e = e - 1 := by unfold VT.addDays; ring
  refine ⟨?_, ?_, ?_⟩
  · intro i j hi hj _hij
    have hfs := VT.findIdx_beq_of_nodup hnd hi
    have hfe := VT.findIdx_beq_of_nodup hnd hj
    rw [← hE] at hfe
    simp only [VT.calculateEventPosition, hfs, hfe]
    have hsi : ((i : Int) == -1) = false := by
      simp only [beq_eq_false_iff_ne, ne_eq]
      omega
    have hsj : ((j : Int) == -1) = false := by
      simp only [beq_eq_false_iff_ne, ne_eq]
      omega
    simp [hsi, hsj]
  · intro h1 h2 h3
    have hfs : cols.findIdx? (fun d => VT.isSameDay d s) = none := by
      rw [List.findIdx?_eq_none_iff]
      intro c hc
      simp [VT.isSameDay, h1 c hc]
    have hfe : cols.findIdx? (fun d => VT.isSameDay d (VT.addDays (-1) e)) = none := by
      rw [List.findIdx?_eq_none_iff]
      intro c hc
      rw [hE]
      simp [VT.isSameDay, h2 c hc]
    have hany : (cols.any fun date =>
        decide (s ≤ date) && decide (date ≤ VT.addDays (-1) e)) = true := by
      rw [List.any_eq_true]
      obtain ⟨c, hc, hc1, hc2⟩ := h3
      exact ⟨c, hc, by rw [hE]; simp [hc1, hc2]⟩
    simp [VT.calculateEventPosition, hfs, hfe, hany]
  · intro hse hnone
    have hfs : cols.findIdx? (fun d => VT.isSameDay d s) = none := by
      rw [List.findIdx?_eq_none_iff]
      intro c hc
      have : ¬ (s ≤ c ∧ c < e) := hnone c hc
      simp only [VT.isSameDay, beq_eq_false_iff_ne, ne_eq]
      intro hcs
      exact this (by omega)
    have hfe : cols.findIdx? (fun d => VT.isSameDay d (VT.addDays (-1) e)) = none := by
      rw [List.findIdx?_eq_none_iff]
      intro c hc
      have : ¬ (s ≤ c ∧ c < e) := hnone c hc
      rw [hE]
      simp only [VT.isSameDay, beq_eq_false_iff_ne, ne_eq]
      intro hce
      exact this (by omega)
    have hany : (cols.any fun date =>
        decide (s ≤ date) && decide (date ≤ VT.addDays (-1) e)) = false := by
      rw [List.any_eq_false]
      intro c hc
      have : ¬ (s ≤ c ∧ c < e) := hnone c hc
      rw [hE]
      simp only [Bool.and_eq_true, decide_eq_true_eq, not_and]
      intro hc1 hc2
      exact this ⟨hc1, by omega⟩
    simp [VT.calculateEventPosition, hfs, hfe, hany]

/-- Witness for C5 on the concrete column window `[10, 11, 12, 13]`: the
event `[11, 13)` spans columns 1–2, the event `[5, 20)` clamps to the full
window, and the event `[0, 5)` is invisible. -/
theorem VT.calculateEventPosition_spec_witness :
    ((VT.calculateEventPosition 11 13 [10, 11, 12, 13]).isVisible = true ∧
      (VT.calculateEventPosition 11 13 [10, 11, 12, 13]).startIndex = ((1 : Nat) : Int) ∧
      (VT.calculateEventPosition 11 13 [10, 11, 12, 13]).width =
        ((2 : Nat) : Int) - ((1 : Nat) : Int) + 1) ∧
    ((VT.calculateEventPosition 5 20 [10, 11, 12, 13]).isVisible = true ∧
      (VT.calculateEventPosition 5 20 [10, 11, 12, 13]).startIndex = 0 ∧
      (VT.calculateEventPosition 5 20 [10, 11, 12, 13]).endIndex =
        (([10, 11, 12, 13] : List Int).length : Int) - 1) ∧
    VT.calculateEventPosition 0 5 [10, 11, 12, 13] = ⟨false, false, false, -1, -1, 0⟩ :=
  ⟨(VT.calculateEventPosition_spec [10, 11, 12, 13] 11 13 (by decide)).1 1 2
      (by decide) (by decide) (by decide),
   (VT.calculateEventPosition_spec [10, 11, 12, 13] 5 20 (by decide)).2.1
      (by decide) (by decide) ⟨10, by decide, by decide, by decide⟩,
   (VT.calculateEventPosition_spec [10, 11, 12, 13] 0 5 (by decide)).2.2
      (by decide) (by decide)⟩

/-- C9: running the move-gesture's terminal cleanup `handleDragEnd` twice
produces the same end state as running it once; the second invocation
cancels no animation frame and removes no ghost, and across both runs the
frame is cancelled at most once and the ghost removed at most once. -/
theorem VT.handleDragEnd_idempotent (s : VT.ManagerState) :
    (VT.handleDragEnd (VT.handleDragEnd s).1).1 = (VT.handleDragEnd s).1 ∧
    (VT.handleDragEnd (VT.handleDragEnd s).1).2 = ⟨0, 0⟩ ∧
    (VT.handleDragEnd s).2.frameCancels ≤ 1 ∧
    (VT.handleDragEnd s).2.ghostRemovals ≤ 1 := by
  unfold VT.handleDragEnd VT.stopScrolling VT.removeDragGhost
  by_cases h1 : s.isScrolling <;> by_cases h2 : s.dragGhost <;>
    by_cases h3 : s.animationFrameId.isSome <;> simp [h1, h2, h3]

/-- C2: every relocation emitted by a drop carries
`end = start + (originalEnd - originalStart)`: the moved event's duration
is preserved exactly, in the manager's `handleDrop` and in the hook's
`handleEventDrop` alike, and the relocation starts at the target date. -/
theorem VT.drop_duration_invariant (hasCb throws : Bool) (s : VT.ManagerState)
    (r : String) (d : Int) (ev : VT.TimelineEvent) :
    (∀ info, (VT.handleDrop hasCb throws s r d ev).emitted = some info →
      info.«end» - info.start = ev.«end» - ev.start ∧ info.start = d) ∧
    ((VT.hookHandleEventDrop r d ev).«end» - (VT.hookHandleEventDrop r d ev).start =
        ev.«end» - ev.start ∧
      (VT.hookHandleEventDrop r d ev).start = d) := by
  constructor
  · intro info hinfo
    by_cases hcb : hasCb
    · by_cases hcf : VT.checkForConflicts s.eventMap r d (d + (ev.«end» - ev.start))
          (some ev.id) = true
      · have hnone : (VT.handleDrop hasCb throws s r d ev).emitted = none := by
          simp [VT.handleDrop, hcb, hcf]
        rw [hnone] at hinfo
        cases hinfo
      · have hsome : (VT.handleDrop hasCb throws s r d ev).emitted =
            some ⟨ev.id, r, d, d + (ev.«end» - ev.start)⟩ := by
          simp [VT.handleDrop, hcb, hcf]
        rw [hsome] at hinfo
        cases Option.some.inj hinfo
        refine ⟨?_, rfl⟩
        show d + (ev.«end» - ev.start) - d = ev.«end» - ev.start
        ring
    · have hnone : (VT.handleDrop hasCb throws s r d ev).emitted = none := by
        simp [VT.handleDrop, hcb]
      rw [hnone] at hinfo
      cases hinfo
  · refine ⟨?_, rfl⟩
    show d + (ev.«end» - ev.start) - d = ev.«end» - ev.start
    ring

/-- Witness for C2: dropping the two-day event `[10, 12)` onto day 100 of
resource `r2` emits the relocation `[100, 102)` — same duration, starting
at the target day — and the hook computes the same interval. -/
theorem VT.drop_duration_invariant_witness :
    ((102 : Int) - 100 = (12 : Int) - 10 ∧ (100 : Int) = 100) ∧
    ((VT.hookHandleEventDrop "r2" 100 ⟨"e2", "r2", 10, 12⟩).«end» -
        (VT.hookHandleEventDrop "r2" 100 ⟨"e2", "r2", 10, 12⟩).start = (12 : Int) - 10) :=
  ⟨(VT.drop_duration_invariant true false VT.sampleState "r2" 100 ⟨"e2", "r2", 10, 12⟩).1
      ⟨"e2", "r2", 100, 102⟩ (by decide),
   (VT.drop_duration_invariant true false VT.sampleState "r2" 100 ⟨"e2", "r2", 10, 12⟩).2.1⟩

/-- C3: with a relocation callback configured, `handleDrop` runs the
conflict check excluding the moved event's own id and invokes the callback
exactly once iff that check is clear; on conflict nothing is emitted, the
user-visible message is set and full cleanup runs (ghost removed, scrolling
stopped, drag state reset) with the event collection untouched; when the
callback throws, the failure is surfaced as a message and the same cleanup
still completes. -/
theorem VT.handleDrop_conflict_gating (throws : Bool) (s : VT.ManagerState)
    (r : String) (d : Int) (ev : VT.TimelineEvent) :
    ((VT.handleDrop true throws s r d ev).dropCalls = 1 ↔
      VT.checkForConflicts s.eventMap r d (d + (ev.«end» - ev.start)) (some ev.id) = false) ∧
    ((VT.handleDrop true throws s r d ev).emitted.isSome = true ↔
      VT.checkForConflicts s.eventMap r d (d + (ev.«end» - ev.start)) (some ev.id) = false) ∧
    (VT.checkForConflicts s.eventMap r d (d + (ev.«end» - ev.start)) (some ev.id) = true →
      (VT.handleDrop true throws s r d ev).state.errorMessage =
          some "Cannot drop event: time slot already occupied" ∧
        (VT.handleDrop true throws s r d ev).state.dragGhost = false ∧
        (VT.handleDrop true throws s r d ev).state.isScrolling = false ∧
        (VT.handleDrop true throws s r d ev).state.dragState = VT.DragState.reset ∧
        (VT.handleDrop true throws s r d ev).state.eventMap = s.eventMap) ∧
    (VT.checkForConflicts s.eventMap r d (d + (ev.«end» - ev.start)) (some ev.id) = false →
      throws = true →
      (VT.handleDrop true throws s r d ev).state.errorMessage =
          some "Error occurred while updating event. Please try again." ∧
        (VT.handleDrop true throws s r d ev).state.dragGhost = false ∧
        (VT.handleDrop true throws s r d ev).state.isScrolling = false ∧
        (VT.handleDrop true throws s r d ev).state.dragState = VT.DragState.reset ∧
        (VT.handleDrop true throws s r d ev).state.eventMap = s.eventMap) := by
  by_cases hcf : VT.checkForConflicts s.eventMap r d (d + (ev.«end» - ev.start))
      (some ev.id) = true
  · simp only [hcf]
    refine ⟨?_, ?_, ?_, by simp⟩
    · simp [VT.handleDrop, hcf]
    · simp [VT.handleDrop, hcf]
    · intro _
      unfold VT.handleDrop VT.handleDragEnd VT.stopScrolling VT.removeDragGhost
      by_cases h1 : s.isScrolling <;> by_cases h2 : s.dragGhost <;>
        simp [hcf, h1, h2]
  · rw [Bool.not_eq_true] at hcf
    simp only [hcf]
    refine ⟨?_, ?_, by simp, ?_⟩
    · simp [VT.handleDrop, hcf]
    · simp [VT.handleDrop, hcf]
    · intro _ hthrows
      subst hthrows
      unfold VT.handleDrop VT.handleDragEnd VT.stopScrolling VT.removeDragGhost
      by_cases h1 : s.isScrolling <;> by_cases h2 : s.dragGhost <;>
        simp [hcf, h1, h2]

/-- Witness for C3: dropping `e2` onto day 4 of `r1` (candidate `[4, 6)`)
conflicts with the existing `[3, 5)` event, so the message is set and
cleanup runs; dropping it onto day 20 of empty `r2` is clear, so the
callback fires once, and when that callback throws the failure message is
set with cleanup still complete. -/
theorem VT.handleDrop_conflict_gating_witness :
    ((VT.handleDrop true false VT.sampleState "r1" 4 ⟨"e2", "r1", 10, 12⟩).state.errorMessage =
        some "Cannot drop event: time slot already occupied" ∧
      (VT.handleDrop true false VT.sampleState "r1" 4
          ⟨"e2", "r1", 10, 12⟩).state.dragGhost = false ∧
      (VT.handleDrop true false VT.sampleState "r1" 4
          ⟨"e2", "r1", 10, 12⟩).state.isScrolling = false ∧
      (VT.handleDrop true false VT.sampleState "r1" 4
          ⟨"e2", "r1", 10, 12⟩).state.dragState = VT.DragState.reset ∧
      (VT.handleDrop true false VT.sampleState "r1" 4
          ⟨"e2", "r1", 10, 12⟩).state.eventMap = VT.sampleState.eventMap) ∧
    (VT.handleDrop true true VT.sampleState "r2" 20 ⟨"e2", "r2", 10, 12⟩).dropCalls = 1 ∧
    ((VT.handleDrop true true VT.sampleState "r2" 20 ⟨"e2", "r2", 10, 12⟩).state.errorMessage =
        some "Error occurred while updating event. Please try again." ∧
      (VT.handleDrop true true VT.sampleState "r2" 20
          ⟨"e2", "r2", 10, 12⟩).state.dragGhost = false ∧
      (VT.handleDrop true true VT.sampleState "r2" 20
          ⟨"e2", "r2", 10, 12⟩).state.isScrolling = false ∧
      (VT.handleDrop true true VT.sampleState "r2" 20
          ⟨"e2", "r2", 10, 12⟩).state.dragState = VT.DragState.reset ∧
      (VT.handleDrop true true VT.sampleState "r2" 20
          ⟨"e2", "r2", 10, 12⟩).state.eventMap = VT.sampleState.eventMap) :=
  ⟨(VT.handleDrop_conflict_gating false VT.sampleState "r1" 4 ⟨"e2", "r1", 10, 12⟩).2.2.1
      (by decide),
   (VT.handleDrop_conflict_gating true VT.sampleState "r2" 20 ⟨"e2", "r2", 10, 12⟩).1.mpr
      (by decide),
   (VT.handleDrop_conflict_gating true VT.sampleState "r2" 20 ⟨"e2", "r2", 10, 12⟩).2.2.2
      (by decide) rfl⟩

/-- C7: a press on a date cell is a silent no-op — the state (including the
error message) is untouched and no subscriber is notified — whenever the
cell is occupied, creation (`droppable`) is disabled, or editing
(`editable`) is disabled; only a press on a non-occupied cell with both
flags enabled activates the create gesture (anchoring both indices on the
pressed cell) and notifies `dragCreateStateChange` first. -/
theorem VT.handleMouseDown_gating (droppable editable : Bool) (s : VT.ManagerState)
    (r : String) (d : Int) (idx : Nat) (occupied : Bool) (foundIndex : Option Nat) :
    ((droppable = false ∨ occupied = true ∨ editable = false) →
      VT.handleMouseDown droppable editable s r d idx occupied foundIndex = (s, [])) ∧
    (droppable = true → occupied = false → editable = true →
      (VT.handleMouseDown droppable editable s r d idx occupied foundIndex).1.dragCreateState =
          ⟨true, some r, some d, some d, some idx, some idx⟩ ∧
        (VT.handleMouseDown droppable editable s r d idx occupied foundIndex).2.head? =
          some VT.EventType.dragCreateStateChange) := by
  constructor
  · intro hgate
    unfold VT.handleMouseDown
    rcases hgate with h | h | h <;> simp [h]
  · intro h1 h2 h3
    subst h1; subst h2; subst h3
    unfold VT.handleMouseDown
    cases foundIndex <;> simp

/-- Witness for C7: pressing an occupied cell leaves the state and the
subscriber stream untouched, while pressing a free cell with creation and
editing enabled activates the gesture anchored on column 5. -/
theorem VT.handleMouseDown_gating_witness :
    VT.handleMouseDown true true VT.sampleState "r1" 30 5 true (some 0) =
        (VT.sampleState, []) ∧
      ((VT.handleMouseDown true true VT.sampleState "r1" 30 5 false
            (some 0)).1.dragCreateState =
          ⟨true, some "r1", some 30, some 30, some 5, some 5⟩ ∧
        (VT.handleMouseDown true true VT.sampleState "r1" 30 5 false (some 0)).2.head? =
          some VT.EventType.dragCreateStateChange) :=
  ⟨(VT.handleMouseDown_gating true true VT.sampleState "r1" 30 5 true (some 0)).1
      (Or.inr (Or.inl rfl)),
   (VT.handleMouseDown_gating true true VT.sampleState "r1" 30 5 false (some 0)).2
      rfl rfl rfl⟩

/-- The day loop collects exactly the integers in `[currentDate, eventEnd)`. -/
theorem VT.mem_occupiedDaysFrom (s e d : Int) :
    d ∈ VT.occupiedDaysFrom s e ↔ s ≤ d ∧ d < e := by
  induction s, e using VT.occupiedDaysFrom.induct with
  | case1 s e h ih =>
    rw [VT.occupiedDaysFrom, if_pos h]
    have ha : VT.addDays 1 s = s + 1 := rfl
    rw [ha] at ih ⊢
    simp only [List.mem_cons, ih]
    omega
  | case2 s e h =>
    rw [VT.occupiedDaysFrom, if_neg h]
    simp only [List.not_mem_nil, false_iff]
    omega

/-- C8: the derived per-resource occupied-date set contains exactly the day
buckets `d` covered by some event of the resource under start-inclusive /
end-exclusive day stepping; being a pure function of the collections, the
map is recomputed from them wholesale on any change. -/
theorem VT.occupiedDates_mem_iff (events : List VT.TimelineEvent) (r : String) (d : Int) :
    d ∈ VT.occupiedDates events r ↔
      ∃ ev ∈ events, ev.resourceId = r ∧ ev.start ≤ d ∧ d < ev.«end» := by
  simp only [VT.occupiedDates, VT.getEventsForResource, List.mem_flatMap,
    List.mem_filter, VT.mem_occupiedDaysFrom, beq_iff_eq]
  constructor
  · rintro ⟨ev, ⟨hmem, hr⟩, h1, h2⟩
    exact ⟨ev, hmem, hr, h1, h2⟩
  · rintro ⟨ev, hmem, hr, h1, h2⟩
    exact ⟨ev, ⟨hmem, hr⟩, h1, h2⟩

/-- The ceiling of `intensity * maxSpeed` is never negative. -/
theorem VT.intensity_ceil_nonneg (d : Int) :
    0 ≤ ⌈VT.autoScrollIntensity d * (VT.maxScrollSpeed : ℚ)⌉ :=
  Int.ceil_nonneg (mul_nonneg (le_max_left 0 _) (by norm_num [VT.maxScrollSpeed]))

/-- For a non-negative edge distance the ceiling of `intensity * maxSpeed`
is capped by `maxScrollSpeed`. -/
theorem VT.intensity_ceil_le (d : Int) (hd : 0 ≤ d) :
    ⌈VT.autoScrollIntensity d * (VT.maxScrollSpeed : ℚ)⌉ ≤ VT.maxScrollSpeed := by
  rw [Int.ceil_le]
  have h0 : (0 : ℚ) ≤ (d : ℚ) / 60 := by
    apply div_nonneg _ (by norm_num)
    exact_mod_cast hd
  have h1 : VT.autoScrollIntensity d ≤ 1 := by
    unfold VT.autoScrollIntensity VT.scrollThreshold
    rw [max_le_iff]
    constructor
    · norm_num
    · push_cast
      linarith
  have h2 : 0 ≤ VT.autoScrollIntensity d := le_max_left 0 _
  unfold VT.maxScrollSpeed
  push_cast
  nlinarith

/-- Strictly inside the threshold the ceiling of `intensity * maxSpeed` is
strictly positive. -/
theorem VT.intensity_ceil_pos (d : Int) (hd : d < VT.scrollThreshold) :
    0 < ⌈VT.autoScrollIntensity d * (VT.maxScrollSpeed : ℚ)⌉ := by
  apply Int.ceil_pos.mpr
  apply mul_pos _ (by norm_num [VT.maxScrollSpeed])
  unfold VT.autoScrollIntensity VT.scrollThreshold
  rw [lt_max_iff]
  right
  have : (d : ℚ) < 60 := by
    unfold VT.scrollThreshold at hd
    exact_mod_cast hd
  push_cast
  rw [sub_pos, div_lt_one (by norm_num)]
  exact this

/-- The ceiling of `intensity * maxSpeed` does not increase as the edge
distance grows. -/
theorem VT.intensity_ceil_antitone {d1 d2 : Int} (h : d1 ≤ d2) :
    ⌈VT.autoScrollIntensity d2 * (VT.maxScrollSpeed : ℚ)⌉ ≤
      ⌈VT.autoScrollIntensity d1 * (VT.maxScrollSpeed : ℚ)⌉ := by
  apply Int.ceil_mono
  apply mul_le_mul_of_nonneg_right _ (by norm_num [VT.maxScrollSpeed])
  unfold VT.autoScrollIntensity
  apply max_le_max le_rfl
  have hq : (d1 : ℚ) ≤ d2 := by exact_mod_cast h
  have : (d1 : ℚ) / (VT.scrollThreshold : ℚ) ≤ (d2 : ℚ) / (VT.scrollThreshold : ℚ) := by
    apply div_le_div_of_nonneg_right hq ?_ |>.trans le_rfl
    norm_num [VT.scrollThreshold]
  linarith

/-- C6 counterexample: on a 1000px viewport with the 60px threshold, the
pointer at distance 1 from the right edge (x = 999) and at distance 0
(x = 1000) gets the same speed 30 — `Math.ceil` plateaus, so the magnitude
is not strictly decreasing as the distance grows. -/
theorem VT.autoScroll_speed_not_strictly_decreasing :
    VT.handleAutoScrollHorizontalSpeed 0 1000 999 = 30 ∧
      VT.handleAutoScrollHorizontalSpeed 0 1000 1000 = 30 ∧
      ¬ (|VT.handleAutoScrollHorizontalSpeed 0 1000 999| <
          |VT.handleAutoScrollHorizontalSpeed 0 1000 1000|) := by
  have h1 : VT.handleAutoScrollHorizontalSpeed 0 1000 999 = 30 := by
    norm_num [VT.handleAutoScrollHorizontalSpeed, VT.autoScrollIntensity,
      VT.scrollThreshold, VT.maxScrollSpeed, Int.ceil_eq_iff]
  have h2 : VT.handleAutoScrollHorizontalSpeed 0 1000 1000 = 30 := by
    norm_num [VT.handleAutoScrollHorizontalSpeed, VT.autoScrollIntensity,
      VT.scrollThreshold, VT.maxScrollSpeed, Int.ceil_eq_iff]
  refine ⟨h1, h2, ?_⟩
  rw [h1, h2]
  simp

/-- C6 (amended): during a move-drag over the viewport `[L, R]`, the
horizontal auto-scroll speed is zero whenever the pointer is at least the
60px threshold away from both edges, non-zero whenever its distance to the
nearest edge lies in `[0, threshold)`, bounded in magnitude by the capped
maximum speed, and its magnitude is non-increasing (weakly decreasing —
the `Math.ceil` makes it plateau rather than strictly decrease) as the
distance to the right or to the left edge grows toward the threshold. -/
theorem VT.autoScroll_speed_profile (L R : Int) :
    (∀ x, VT.scrollThreshold ≤ x - L → VT.scrollThreshold ≤ R - x →
      VT.handleAutoScrollHorizontalSpeed L R x = 0) ∧
    (∀ x, 0 ≤ min (x - L) (R - x) → min (x - L) (R - x) < VT.scrollThreshold →
      VT.handleAutoScrollHorizontalSpeed L R x ≠ 0) ∧
    (∀ x, |VT.handleAutoScrollHorizontalSpeed L R x| ≤ VT.maxScrollSpeed) ∧
    (∀ d1 d2 : Int, 0 ≤ d1 → d1 ≤ d2 → d2 ≤ R - L - VT.scrollThreshold →
      |VT.handleAutoScrollHorizontalSpeed L R (R - d2)| ≤
        |VT.handleAutoScrollHorizontalSpeed L R (R - d1)|) ∧
    (∀ d1 d2 : Int, 0 ≤ d1 → d1 ≤ d2 → d2 ≤ R - L - VT.scrollThreshold →
      |VT.handleAutoScrollHorizontalSpeed L R (L + d2)| ≤
        |VT.handleAutoScrollHorizontalSpeed L R (L + d1)|) := by
  have hth : VT.scrollThreshold = 60 := rfl
  refine ⟨?_, ?_, ?_, ?_, ?_⟩
  · intro x h1 h2
    unfold VT.handleAutoScrollHorizontalSpeed
    rw [if_neg (by omega), if_neg (by omega)]
  · intro x hmin0 hmin
    have hl0 : 0 ≤ x - L := le_trans hmin0 (min_le_left _ _)
    have hr0 : 0 ≤ R - x := le_trans hmin0 (min_le_right _ _)
    by_cases hc : x - L < VT.scrollThreshold
    · unfold VT.handleAutoScrollHorizontalSpeed
      rw [if_pos ⟨hc, hl0⟩]
      have := VT.intensity_ceil_pos (x - L) hc
      omega
    · have hrc : R - x < VT.scrollThreshold := by
        rcases min_lt_iff.mp hmin with h | h
        · exact absurd h hc
        · exact h
      unfold VT.handleAutoScrollHorizontalSpeed
      rw [if_neg (by omega), if_pos ⟨hrc, hr0⟩]
      have := VT.intensity_ceil_pos (R - x) hrc
      omega
  · intro x
    unfold VT.handleAutoScrollHorizontalSpeed
    by_cases hc1 : x - L < VT.scrollThreshold ∧ 0 ≤ x - L
    · rw [if_pos hc1, abs_neg, abs_of_nonneg (VT.intensity_ceil_nonneg _)]
      exact VT.intensity_ceil_le _ hc1.2
    · rw [if_neg hc1]
      by_cases hc2 : R - x < VT.scrollThreshold ∧ 0 ≤ R - x
      · rw [if_pos hc2, abs_of_nonneg (VT.intensity_ceil_nonneg _)]
        exact VT.intensity_ceil_le _ hc2.2
      · rw [if_neg hc2]
        simp [VT.maxScrollSpeed]
  · intro d1 d2 h0 h12 hfar
    have key : ∀ d : Int, 0 ≤ d → d ≤ R - L - VT.scrollThreshold →
        VT.handleAutoScrollHorizontalSpeed L R (R - d) =
          if d < VT.scrollThreshold then
            ⌈VT.autoScrollIntensity d * (VT.maxScrollSpeed : ℚ)⌉
          else 0 := by
      intro d hd hdf
      unfold VT.handleAutoScrollHorizontalSpeed
      rw [if_neg (by omega)]
      by_cases hc : d < VT.scrollThreshold
      · have harg : R - (R - d) = d := by omega
        rw [if_pos (by constructor <;> omega), if_pos hc, harg]
      · rw [if_neg (by omega), if_neg hc]
    rw [key d2 (le_trans h0 h12) hfar, key d1 h0 (le_trans h12 hfar)]
    by_cases hc2 : d2 < VT.scrollThreshold
    · have hc1 : d1 < VT.scrollThreshold := by omega
      rw [if_pos hc2, if_pos hc1,
        abs_of_nonneg (VT.intensity_ceil_nonneg _),
        abs_of_nonneg (VT.intensity_ceil_nonneg _)]
      exact VT.intensity_ceil_antitone h12
    · rw [if_neg hc2]
      simp only [abs_zero]
      exact abs_nonneg _
  · intro d1 d2 h0 h12 hfar
    have key : ∀ d : Int, 0 ≤ d → d ≤ R - L - VT.scrollThreshold →
        VT.handleAutoScrollHorizontalSpeed L R (L + d) =
          if d < VT.scrollThreshold then
            -⌈VT.autoScrollIntensity d * (VT.maxScrollSpeed : ℚ)⌉
          else 0 := by
      intro d hd hdf
      unfold VT.handleAutoScrollHorizontalSpeed
      by_cases hc : d < VT.scrollThreshold
      · have harg : L + d - L = d := by omega
        rw [if_pos (by constructor <;> omega), if_pos hc, harg]
      · rw [if_neg (by omega), if_neg (by omega), if_neg hc]
    rw [key d2 (le_trans h0 h12) hfar, key d1 h0 (le_trans h12 hfar)]
    by_cases hc2 : d2 < VT.scrollThreshold
    · have hc1 : d1 < VT.scrollThreshold := by omega
      rw [if_pos hc2, if_pos hc1, abs_neg, abs_neg,
        abs_of_nonneg (VT.intensity_ceil_nonneg _),
        abs_of_nonneg (VT.intensity_ceil_nonneg _)]
      exact VT.intensity_ceil_antitone h12
    · rw [if_neg hc2]
      simp only [abs_zero]
      exact abs_nonneg _

/-- Witness for C6 on the 1000px viewport `[0, 1000]`: the speed is zero at
the centre, non-zero at 1px from the right edge, capped at 30 in magnitude
there, and its magnitude at distance 30 from either edge does not exceed
its magnitude at distance 5. -/
theorem VT.autoScroll_speed_profile_witness :
    VT.handleAutoScrollHorizontalSpeed 0 1000 500 = 0 ∧
      VT.handleAutoScrollHorizontalSpeed 0 1000 999 ≠ 0 ∧
      |VT.handleAutoScrollHorizontalSpeed 0 1000 999| ≤ VT.maxScrollSpeed ∧
      |VT.handleAutoScrollHorizontalSpeed 0 1000 (1000 - 30)| ≤
        |VT.handleAutoScrollHorizontalSpeed 0 1000 (1000 - 5)| ∧
      |VT.handleAutoScrollHorizontalSpeed 0 1000 (0 + 30)| ≤
        |VT.handleAutoScrollHorizontalSpeed 0 1000 (0 + 5)| :=
  ⟨(VT.autoScroll_speed_profile 0 1000).1 500 (by decide) (by decide),
   (VT.autoScroll_speed_profile 0 1000).2.1 999 (by decide) (by decide),
   (VT.autoScroll_speed_profile 0 1000).2.2.1 999,
   (VT.autoScroll_speed_profile 0 1000).2.2.2.1 5 30 (by decide) (by decide) (by decide),
   (VT.autoScroll_speed_profile 0 1000).2.2.2.2 5 30 (by decide) (by decide) (by decide)⟩
